import Mathlib

/-!
Verification development for the go-qemu image layer (image.go of the
GammaByte fork).  The Go code is shallowly embedded: the `Image` struct and
`Snapshot` struct become Lean structures, the pure configuration builders
(`NewImage`, `NewEncryptedImage`, `OptimizeSpeed`, `OptimizeSize`) become
Lean functions, and the effectful methods (`Create`, the snapshot
operations, `Rebase`, `retreiveInfos`) are embedded as the pure argument
rendering / output parsing they perform, with the external `qemu-img`
subprocess outcome abstracted as an explicit parameter where it matters.
Go `int64` fields are `Int`, `uint64` is `Nat` (no arithmetic is performed
on them), Go strings are `String`, and `time.Time` values are represented
by the normalized (sec, nsec) pair that Go `time.Unix` produces.
-/

namespace GoQemu

/-- Image format constants from the Go source. -/
def ImageFormatRAW : String := "raw"

def ImageFormatQCOW2 : String := "qcow2"

def CompatLevelQCOW3 : String := "1.1"

def CompatLevelQCOW2 : String := "0.10"

def ImagePreallocMetadata : String := "metadata"

def CipherAlgorithmAES256 : String := "aes-256"

def CipherHashAlgorithmSHA256 : String := "sha256"

def CipherFormatLUKS : String := "luks"

def CipherModeXTS : String := "xts"

def IVGenAlgPlain64 : String := "plain64"

def IVGenHashAlgorithmSHA256 : String := "sha256"

/-- Model of Go `time.Time` restricted to what this code constructs:
the normalized Unix (seconds, nanoseconds) pair. -/
structure GoTime where
  sec : Int
  nsec : Int
  deriving DecidableEq, Repr

/-- Go `time.Unix(sec, nsec)`: normalizes `nsec` into `[0, 1e9)`,
carrying into `sec`, with Go truncated integer division. -/
def timeUnix (sec nsec : Int) : GoTime :=
  if nsec < 0 ∨ nsec ≥ 1000000000 then
    let n := Int.tdiv nsec 1000000000
    let sec := sec + n
    let nsec := nsec - n * 1000000000
    if nsec < 0 then ⟨sec - 1, nsec + 1000000000⟩ else ⟨sec, nsec⟩
  else ⟨sec, nsec⟩

/-- The `Snapshot` struct from the Go source. -/
structure Snapshot where
  ID : Int
  Name : String
  Date : GoTime
  VMClock : GoTime
  deriving DecidableEq, Repr

/-- The `Image` struct from the Go source, fields in source order. -/
structure Image where
  Path : String
  Format : String
  Size : Nat
  Secret : String
  BackingFile : String
  Encrypted : Bool
  LazyRefcounts : Bool
  CompatLevel : String
  RefcountBits : Int
  ClusterSizeKB : Int
  ExtendedL2 : Bool
  Preallocation : String
  CipherAlgorithm : String
  CipherMode : String
  CipherFormat : String
  CipherHashAlg : String
  EncryptIterTime : Int
  EncryptIvGenAlg : String
  EncryptIvGenHashAlg : String
  snapshots : List Snapshot
  deriving DecidableEq, Repr

/-- The Go zero value of `Image` (`var img Image`). -/
def zeroImage : Image where
  Path := ""
  Format := ""
  Size := 0
  Secret := ""
  BackingFile := ""
  Encrypted := false
  LazyRefcounts := false
  CompatLevel := ""
  RefcountBits := 0
  ClusterSizeKB := 0
  ExtendedL2 := false
  Preallocation := ""
  CipherAlgorithm := ""
  CipherMode := ""
  CipherFormat := ""
  CipherHashAlg := ""
  EncryptIterTime := 0
  EncryptIvGenAlg := ""
  EncryptIvGenHashAlg := ""
  snapshots := []

/-- The constructor `NewImage` from the Go source. -/
def NewImage (path format : String) (size : Nat) : Image :=
  { zeroImage with
      Path := path
      Format := format
      Size := size
      ClusterSizeKB := 64
      RefcountBits := 16 }

/-- The constructor `NewEncryptedImage` from the Go source.  The second component models
the returned `error` (`none` for nil).  The Go error message quotes the
constant name with single quotes, elided here. -/
def NewEncryptedImage (path format secret : String) (size : Nat) :
    Image × Option String :=
  let img : Image :=
    { zeroImage with
        Path := path
        Format := format
        Size := size
        Secret := secret
        Encrypted := true
        ClusterSizeKB := 64
        RefcountBits := 16 }
  if format ≠ ImageFormatQCOW2 then
    (img, some "encrypted volumes must be of the type ImageFormatQCOW2")
  else
    (img, none)

/-- The method `Image.OptimizeSpeed` from the Go source: sets the speed-profile
geometry fields, and when the image is encrypted also a fixed cipher
suite with iteration time 1000 ms. -/
def Image.OptimizeSpeed (i : Image) : Image :=
  let i :=
    { i with
        LazyRefcounts := true
        CompatLevel := CompatLevelQCOW3
        RefcountBits := 64
        ClusterSizeKB := 1024
        ExtendedL2 := true
        Preallocation := "full" }
  if i.Encrypted then
    { i with
        CipherAlgorithm := CipherAlgorithmAES256
        CipherHashAlg := CipherHashAlgorithmSHA256
        CipherFormat := CipherFormatLUKS
        CipherMode := CipherModeXTS
        EncryptIvGenAlg := IVGenAlgPlain64
        EncryptIterTime := 1000
        EncryptIvGenHashAlg := IVGenHashAlgorithmSHA256 }
  else i

/-- The method `Image.OptimizeSize` from the Go source: sets the size-profile
geometry fields (it does not touch `LazyRefcounts` or `CompatLevel`),
and when the image is encrypted the same cipher suite with iteration
time 2000 ms. -/
def Image.OptimizeSize (i : Image) : Image :=
  let i :=
    { i with
        RefcountBits := 16
        ClusterSizeKB := 64
        ExtendedL2 := true
        Preallocation := "metadata" }
  if i.Encrypted then
    { i with
        CipherAlgorithm := CipherAlgorithmAES256
        CipherHashAlg := CipherHashAlgorithmSHA256
        CipherFormat := CipherFormatLUKS
        CipherMode := CipherModeXTS
        EncryptIvGenAlg := IVGenAlgPlain64
        EncryptIterTime := 2000
        EncryptIvGenHashAlg := IVGenHashAlgorithmSHA256 }
  else i

/-- Go `strconv.FormatUint(n, 10)`: decimal rendering of a `uint64`. -/
def formatUint (n : Nat) : String := toString n

/-- Decimal accumulation of `strconv.ParseUint` in base 10: all
characters must be ASCII digits, otherwise the parse fails. -/
def decValAux : List Char → Nat → Option Nat
  | [], acc => some acc
  | c :: cs, acc =>
    if c.isDigit then decValAux cs (acc * 10 + (c.toNat - 48)) else none

/-- Go `strconv.Atoi` (i.e. `ParseInt(s, 10, 64)` on a 64-bit platform):
an optional single sign, then a nonempty run of decimal digits, with the
result required to fit in `int64` (out-of-range inputs fail). -/
def goAtoi (s : String) : Option Int :=
  match s.data with
  | [] => none
  | c :: rest =>
    let p : Bool × List Char :=
      if c = '-' then (true, rest)
      else if c = '+' then (false, rest)
      else (false, c :: rest)
    if p.2.isEmpty then none
    else
      match decValAux p.2 0 with
      | none => none
      | some n =>
        if p.1 then (if n ≤ 2 ^ 63 then some (-(n : Int)) else none)
        else (if n ≤ 2 ^ 63 - 1 then some (n : Int) else none)

/-- The `snapshotInfo` record decoded from the JSON output of
`qemu-img info` (local type inside `retreiveInfos`). -/
structure snapshotInfo where
  ID : String
  Name : String
  DateSec : Int
  DateNsec : Int
  ClockSec : Int
  ClockNsec : Int
  deriving DecidableEq, Repr

/-- The `imgInfo` record decoded from the JSON output of
`qemu-img info` (local type inside `retreiveInfos`); a missing
`encrypted` field decodes to `false`. -/
structure imgInfo where
  Snapshots : List snapshotInfo
  Format : String
  Size : Nat
  Encrypted : Bool
  deriving DecidableEq, Repr

/-- The snapshot loop of `retreiveInfos`: each record whose `id` fails
`strconv.Atoi` is skipped with `continue`; the rest are converted in
order, appended to the result list. -/
def parseSnapshots : List snapshotInfo → List Snapshot
  | [] => []
  | snap :: rest =>
    match goAtoi snap.ID with
    | none => parseSnapshots rest
    | some id =>
        { ID := id
          Name := snap.Name
          Date := timeUnix snap.DateSec snap.DateNsec
          VMClock := timeUnix snap.ClockSec snap.ClockNsec } :: parseSnapshots rest

/-- The field-assignment phase of `retreiveInfos` (source lines 188-211),
applied to an already-decoded `imgInfo` payload: the subprocess execution
and JSON unmarshalling that produce the payload are abstracted away.
If the image carries a non-empty secret, `Encrypted` is forced `true`,
otherwise it is taken from the payload. -/
def retreiveInfosApply (i : Image) (info : imgInfo) : Image :=
  { i with
      Format := info.Format
      Size := info.Size
      Encrypted := if i.Secret ≠ "" then true else info.Encrypted
      snapshots := parseSnapshots info.Snapshots }

/-- The method `Image.Create` from the Go source, embedded as the argument-list
rendering it performs: `Except.ok args` models a successful render that
would invoke `qemu-img` with `args`, `Except.error` models the early
error return (no arguments produced, no subprocess run). -/
def Image.create (i : Image) : Except String (List String) :=
  if i.Encrypted = false then
    let args := ["create", "-f", i.Format]
    let args := if i.BackingFile.length > 0 then
      args ++ ["-o", "backing_file=" ++ i.BackingFile] else args
    let args := if i.CompatLevel.length > 0 then
      args ++ ["-o", "compat=" ++ i.CompatLevel] else args
    let args := if i.ClusterSizeKB ≠ 64 then
      args ++ ["-o", "cluster_size=" ++ toString i.ClusterSizeKB ++ "K"] else args
    let args := if i.ExtendedL2 then
      args ++ ["-o", "extended_l2=on"] else args
    let args := if i.LazyRefcounts then
      args ++ ["-o", "lazy_refcounts=on"] else args
    let args := if i.Preallocation.length > 0 then
      args ++ ["-o", "preallocation=" ++ i.Preallocation]
      else args ++ ["-o", "preallocation=metadata"]
    let args := if i.RefcountBits ≠ 16 then
      args ++ ["-o", "refcount_bits=" ++ toString i.RefcountBits] else args
    Except.ok (args ++ [i.Path, formatUint i.Size])
  else if i.Format ≠ ImageFormatQCOW2 then
    Except.error "encrypted volumes must be qcow2 format"
  else
    let args := ["create", "--object", "secret,id=sec0,data=" ++ i.Secret,
      "-f", i.Format, "-o", "encrypt.key-secret=sec0"]
    let args := if i.BackingFile.length > 0 then
      args ++ ["-o", "backing_file=" ++ i.BackingFile] else args
    let args := if i.CompatLevel.length > 0 then
      args ++ ["-o", "compat=" ++ i.CompatLevel] else args
    let args := if i.ClusterSizeKB ≠ 64 then
      args ++ ["-o", "cluster_size=" ++ toString i.ClusterSizeKB ++ "K"] else args
    let args := if i.ExtendedL2 then
      args ++ ["-o", "extended_l2=on"] else args
    let args := if i.LazyRefcounts then
      args ++ ["-o", "lazy_refcounts=on"] else args
    let args := if i.Preallocation.length > 0 then
      args ++ ["-o", "preallocation=" ++ i.Preallocation]
      else args ++ ["-o", "preallocation=metadata"]
    let args := if i.RefcountBits ≠ 16 then
      args ++ ["-o", "refcount_bits=" ++ toString i.RefcountBits] else args
    let args := if i.EncryptIterTime ≠ 0 then
      args ++ ["-o", "encrypt.iter-time=" ++ toString i.EncryptIterTime] else args
    let args := if i.EncryptIvGenHashAlg.length > 0 then
      args ++ ["-o", "encrypt.ivgen-hash-alg=" ++ i.EncryptIvGenHashAlg] else args
    let args := if i.EncryptIvGenAlg.length > 0 then
      args ++ ["-o", "encrypt.ivgen-alg=" ++ i.EncryptIvGenAlg] else args
    let args := if i.CipherMode.length > 0 then
      args ++ ["-o", "encrypt.cipher-mode=" ++ i.CipherMode] else args
    let args := if i.CipherAlgorithm.length > 0 then
      args ++ ["-o", "encrypt.cipher-alg=" ++ i.CipherAlgorithm] else args
    let args := if i.CipherHashAlg.length > 0 then
      args ++ ["-o", "encrypt.hash-alg=" ++ i.CipherHashAlg] else args
    let args := if i.CipherFormat.length > 0 then
      args ++ ["-o", "encrypt.format=" ++ i.CipherFormat]
      else args ++ ["-o", "encrypt.format=luks"]
    Except.ok (args ++ [i.Path, formatUint i.Size])

/-- The `qemu-img snapshot` argument list rendered by `CreateSnapshot`:
plain images use `-c name path`, encrypted images pass the secret inline
through an `--object` argument and image options. -/
def Image.createSnapshotArgs (i : Image) (name : String) : List String :=
  if i.Encrypted = false then
    ["snapshot", "-c", name, i.Path]
  else
    ["snapshot", "--object", "secret,id=sec0,data=" ++ i.Secret, "--image-opts",
      "-c", name, "encrypt.format=luks,encrypt.key-secret=sec0,file.filename=" ++ i.Path]

/-- The argument list rendered by `RestoreSnapshot` (`-a`). -/
def Image.restoreSnapshotArgs (i : Image) (name : String) : List String :=
  if i.Encrypted = false then
    ["snapshot", "-a", name, i.Path]
  else
    ["snapshot", "--object", "secret,id=sec0,data=" ++ i.Secret, "--image-opts",
      "-a", name, "encrypt.format=luks,encrypt.key-secret=sec0,file.filename=" ++ i.Path]

/-- The argument list rendered by `DeleteSnapshot` (`-d`). -/
def Image.deleteSnapshotArgs (i : Image) (name : String) : List String :=
  if i.Encrypted = false then
    ["snapshot", "-d", name, i.Path]
  else
    ["snapshot", "--object", "secret,id=sec0,data=" ++ i.Secret, "--image-opts",
      "-d", name, "encrypt.format=luks,encrypt.key-secret=sec0,file.filename=" ++ i.Path]

/-- The lookup-by-name scan performed after `CreateSnapshot` runs the
external tool: linear scan with `break` on the first entry whose `Name`
matches. -/
def findSnapshotByName : List Snapshot → String → Option Snapshot
  | [], _ => none
  | s :: rest, name => if s.Name = name then some s else findSnapshotByName rest name

/-- The tail of `CreateSnapshot`: when the scan finds a snapshot it is
returned, otherwise the method returns the error
"couldn t find newly created snapshot" (modelled as `Except.error ()`,
the message abstracted to avoid embedding its contraction). -/
def createSnapshotResult (snaps : List Snapshot) (name : String) :
    Except Unit Snapshot :=
  match findSnapshotByName snaps name with
  | some s => Except.ok s
  | none => Except.error ()

/-- The method `Image.Rebase` from the Go source: the receiver's `BackingFile` is
assigned before `qemu-img rebase` is invoked; the subprocess outcome is
abstracted as `toolOut` (`some diagnostic` for a non-zero exit, `none`
for success).  Returns the updated image and the returned error. -/
def Image.rebase (i : Image) (backingFile : String) (toolOut : Option String) :
    Image × Option String :=
  let i2 := { i with BackingFile := backingFile }
  match toolOut with
  | some out => (i2, some ("qemu-img rebase output: " ++ out))
  | none => (i2, none)

/-- C1 counterexample: on the base image `NewImage "a.qcow2" qcow2 0`,
applying the speed profile and then the size profile does NOT agree with
the size profile alone on the profile-controlled field `LazyRefcounts`
(the composition leaves it `true`, the size profile alone leaves it
`false`), refuting the claim at this concrete input. -/
theorem C1_counterexample :
    ¬ ((((NewImage "a.qcow2" ImageFormatQCOW2 0).OptimizeSpeed).OptimizeSize).LazyRefcounts
        = ((NewImage "a.qcow2" ImageFormatQCOW2 0).OptimizeSize).LazyRefcounts) := by
  decide

/-- C1 amended: for every base image `d`, `d.OptimizeSpeed.OptimizeSize`
agrees with `d.OptimizeSize` on every field EXCEPT `LazyRefcounts` and
`CompatLevel`, which retain the speed profile values `true` and "1.1":
the result is exactly `d.OptimizeSize` with those two fields overridden. -/
theorem C1_amended (d : Image) :
    (d.OptimizeSpeed).OptimizeSize
      = { d.OptimizeSize with LazyRefcounts := true, CompatLevel := CompatLevelQCOW3 } := by
  rcases d with ⟨p, f, sz, sec, bf, enc, lr, cl, rb, cs, el, pre, ca, cm, cf, ch, it, iva, ivh, sn⟩
  cases enc <;> rfl

/-- Rewriting step: a conditional append pulled out to a conditional
segment. -/
theorem append_ite (a x : List String) (c : Prop) [Decidable c] :
    (if c then a ++ x else a) = a ++ (if c then x else []) := by
  split <;> simp

/-- Rewriting step: a conditional choice of appended segment pulled out. -/
theorem append_ite2 (a x y : List String) (c : Prop) [Decidable c] :
    (if c then a ++ x else a ++ y) = a ++ (if c then x else y) := by
  split <;> rfl

/-- The geometry option flags of a create invocation, in the order the
source emits them: backing-file, compatibility-level, cluster-size,
extended-L2, lazy-refcounts, preallocation (always emitted, defaulting
to metadata), refcount-bits. -/
def geometryFlags (i : Image) : List String :=
  (if i.BackingFile.length > 0 then ["-o", "backing_file=" ++ i.BackingFile] else []) ++
  (if i.CompatLevel.length > 0 then ["-o", "compat=" ++ i.CompatLevel] else []) ++
  (if i.ClusterSizeKB ≠ 64 then ["-o", "cluster_size=" ++ toString i.ClusterSizeKB ++ "K"] else []) ++
  (if i.ExtendedL2 then ["-o", "extended_l2=on"] else []) ++
  (if i.LazyRefcounts then ["-o", "lazy_refcounts=on"] else []) ++
  (if i.Preallocation.length > 0 then ["-o", "preallocation=" ++ i.Preallocation]
    else ["-o", "preallocation=metadata"]) ++
  (if i.RefcountBits ≠ 16 then ["-o", "refcount_bits=" ++ toString i.RefcountBits] else [])

/-- The encryption option flags of an encrypted create invocation, in the
order the source emits them: iteration-time, IV-gen hash, IV-gen
algorithm, cipher-mode, cipher-algorithm, cipher-hash, cipher-format
(defaulting to luks when unset). -/
def encryptionFlags (i : Image) : List String :=
  (if i.EncryptIterTime ≠ 0 then ["-o", "encrypt.iter-time=" ++ toString i.EncryptIterTime] else []) ++
  (if i.EncryptIvGenHashAlg.length > 0 then ["-o", "encrypt.ivgen-hash-alg=" ++ i.EncryptIvGenHashAlg] else []) ++
  (if i.EncryptIvGenAlg.length > 0 then ["-o", "encrypt.ivgen-alg=" ++ i.EncryptIvGenAlg] else []) ++
  (if i.CipherMode.length > 0 then ["-o", "encrypt.cipher-mode=" ++ i.CipherMode] else []) ++
  (if i.CipherAlgorithm.length > 0 then ["-o", "encrypt.cipher-alg=" ++ i.CipherAlgorithm] else []) ++
  (if i.CipherHashAlg.length > 0 then ["-o", "encrypt.hash-alg=" ++ i.CipherHashAlg] else []) ++
  (if i.CipherFormat.length > 0 then ["-o", "encrypt.format=" ++ i.CipherFormat]
    else ["-o", "encrypt.format=luks"])

/-- A concrete encrypted image exercising both geometry and encryption
flags: an encrypted qcow2 image with the speed profile applied. -/
def imgC2 : Image :=
  ((NewEncryptedImage "enc.qcow2" ImageFormatQCOW2 "secret1" (5 * 2 ^ 30)).1).OptimizeSpeed

/-- The argument list rendered by `Image.create`, with the error case
collapsed to the empty list. -/
def createArgs (i : Image) : List String :=
  match i.create with
  | Except.ok a => a
  | Except.error _ => []

/-- C2 counterexample: on the concrete encrypted image `imgC2`, the
encryption flag `encrypt.iter-time=1000` is emitted (index 20) AFTER the
geometry flag `cluster_size=1024K` (index 10), refuting the claim that
all encryption-related flags come before the geometry flags. -/
theorem C2_counterexample :
    "encrypt.iter-time=1000" ∈ createArgs imgC2 ∧
    "cluster_size=1024K" ∈ createArgs imgC2 ∧
    List.indexOf "cluster_size=1024K" (createArgs imgC2)
      < List.indexOf "encrypt.iter-time=1000" (createArgs imgC2) := by
  refine ⟨?_, ?_, ?_⟩ <;> decide

/-- C2 amended: for every encrypted qcow2 image the rendered create
arguments are the fixed head (create, the secret object argument, the
format, and the key-secret reference), then the geometry flags in the
order backing-file, compat, cluster-size, extended-L2, lazy-refcounts,
preallocation (always, defaulting to metadata), refcount-bits, THEN the
encryption flags in the order iteration-time, IV-gen hash, IV-gen
algorithm, cipher-mode, cipher-algorithm, cipher-hash, cipher-format
(defaulting to luks), and finally path and size as the last two
positional arguments. -/
theorem C2_amended (i : Image) (hE : i.Encrypted = true)
    (hF : i.Format = ImageFormatQCOW2) :
    i.create = Except.ok
      (["create", "--object", "secret,id=sec0,data=" ++ i.Secret,
        "-f", i.Format, "-o", "encrypt.key-secret=sec0"]
        ++ geometryFlags i ++ encryptionFlags i ++ [i.Path, formatUint i.Size]) := by
  simp only [Image.create, hE, hF, geometryFlags, encryptionFlags,
    append_ite, append_ite2, List.append_assoc]
  simp

/-- C2 witness: the amended ordering theorem applied to the concrete
encrypted image `imgC2`. -/
theorem C2_amended_witness :
    imgC2.create = Except.ok
      (["create", "--object", "secret,id=sec0,data=" ++ imgC2.Secret,
        "-f", imgC2.Format, "-o", "encrypt.key-secret=sec0"]
        ++ geometryFlags imgC2 ++ encryptionFlags imgC2
        ++ [imgC2.Path, formatUint imgC2.Size]) :=
  C2_amended imgC2 rfl rfl

/-- C3: parsing an inspection payload forces `Encrypted = true` whenever
the image already carries a non-empty secret, regardless of what the
payload reports; with an empty secret, `Encrypted` is taken verbatim
from the payload. -/
theorem C3_secret_forces_encrypted (i : Image) (info : imgInfo) :
    (i.Secret ≠ "" → (retreiveInfosApply i info).Encrypted = true) ∧
    (i.Secret = "" → (retreiveInfosApply i info).Encrypted = info.Encrypted) := by
  constructor
  · intro h
    simp [retreiveInfosApply, h]
  · intro h
    simp [retreiveInfosApply, h]

/-- A concrete image carrying a secret, for the C3 witness. -/
def imgC3 : Image := { zeroImage with Path := "c3.qcow2", Secret := "k" }

/-- A concrete payload reporting `encrypted: false`, for the C3 witness. -/
def infoC3 : imgInfo := { Snapshots := [], Format := "qcow2", Size := 512, Encrypted := false }

/-- C3 witness: with secret "k" and a payload reporting
`encrypted: false`, the parsed image still has `Encrypted = true`; with
the secret removed, it has `Encrypted = false` as reported. -/
theorem C3_secret_forces_encrypted_witness :
    (retreiveInfosApply imgC3 infoC3).Encrypted = true ∧
    (retreiveInfosApply { imgC3 with Secret := "" } infoC3).Encrypted = false :=
  ⟨(C3_secret_forces_encrypted imgC3 infoC3).1 (by decide),
   ((C3_secret_forces_encrypted { imgC3 with Secret := "" } infoC3).2 rfl).trans rfl⟩

/-- C4: for every format other than qcow2, `NewEncryptedImage` returns a
non-nil error together with a fully populated image: `Encrypted = true`,
the given secret, path, format and size all recorded (and the geometry
defaults set). -/
theorem C4_populated_despite_error (path format secret : String) (size : Nat)
    (h : format ≠ ImageFormatQCOW2) :
    (NewEncryptedImage path format secret size).2.isSome = true ∧
    (NewEncryptedImage path format secret size).1.Encrypted = true ∧
    (NewEncryptedImage path format secret size).1.Secret = secret ∧
    (NewEncryptedImage path format secret size).1.Path = path ∧
    (NewEncryptedImage path format secret size).1.Format = format ∧
    (NewEncryptedImage path format secret size).1.Size = size := by
  simp [NewEncryptedImage, h]

/-- C4 witness: the theorem at the concrete input
`NewEncryptedImage "a.raw" raw "sec" 5`. -/
theorem C4_populated_despite_error_witness :
    (NewEncryptedImage "a.raw" ImageFormatRAW "sec" 5).2.isSome = true ∧
    (NewEncryptedImage "a.raw" ImageFormatRAW "sec" 5).1.Encrypted = true ∧
    (NewEncryptedImage "a.raw" ImageFormatRAW "sec" 5).1.Secret = "sec" ∧
    (NewEncryptedImage "a.raw" ImageFormatRAW "sec" 5).1.Path = "a.raw" ∧
    (NewEncryptedImage "a.raw" ImageFormatRAW "sec" 5).1.Format = ImageFormatRAW ∧
    (NewEncryptedImage "a.raw" ImageFormatRAW "sec" 5).1.Size = 5 :=
  C4_populated_despite_error "a.raw" ImageFormatRAW "sec" 5 (by decide)

/-- The per-record conversion of the snapshot loop, as an optional
value: `none` exactly when the id does not parse as an integer. -/
def snapOfInfo (snap : snapshotInfo) : Option Snapshot :=
  (goAtoi snap.ID).map fun id =>
    { ID := id
      Name := snap.Name
      Date := timeUnix snap.DateSec snap.DateNsec
      VMClock := timeUnix snap.ClockSec snap.ClockNsec }

/-- C5: the snapshot loop keeps exactly the records whose id parses as
an integer, in their original order, and drops the rest: it equals
`filterMap` of the per-record conversion, and the kept names are the
names of the records that pass the id parse, in order.  The parse as a
whole is total (`parseSnapshots` and `retreiveInfosApply` always return
a value; dropped records produce no error). -/
theorem C5_drops_bad_ids (infos : List snapshotInfo) :
    parseSnapshots infos = infos.filterMap snapOfInfo ∧
    (parseSnapshots infos).map Snapshot.Name
      = (infos.filter fun s => (goAtoi s.ID).isSome).map snapshotInfo.Name := by
  induction infos with
  | nil => exact ⟨rfl, rfl⟩
  | cons snap rest ih =>
    refine ⟨?_, ?_⟩
    · show parseSnapshots (snap :: rest) = _
      rw [List.filterMap_cons]
      unfold parseSnapshots snapOfInfo
      cases h : goAtoi snap.ID with
      | none => simpa [h] using ih.1
      | some id => simpa [h, Option.map_some] using ih.1
    · show (parseSnapshots (snap :: rest)).map Snapshot.Name = _
      rw [List.filter_cons]
      unfold parseSnapshots
      cases h : goAtoi snap.ID with
      | none => simpa [h] using ih.2
      | some id => simpa [h] using ih.2

/-- C6: a plain image fresh from `NewImage` (all geometry fields at the
constructor defaults) renders exactly
`[create, -f, format, -o, preallocation=metadata, path, size]` with no
other `-o` flags; in particular `NewImage "test.qcow2" qcow2 (10*2^30)`
renders the expected concrete argument list. -/
theorem C6_default_create_args :
    (∀ (path format : String) (size : Nat),
      (NewImage path format size).create
        = Except.ok ["create", "-f", format, "-o", "preallocation=metadata",
            path, formatUint size]) ∧
    (NewImage "test.qcow2" ImageFormatQCOW2 (10 * 2 ^ 30)).create
      = Except.ok ["create", "-f", "qcow2", "-o", "preallocation=metadata",
          "test.qcow2", "10737418240"] := by
  constructor
  · intro path format size
    rfl
  · rfl

/-- C7: an encrypted image whose format is not qcow2 makes `Create`
return an error: no argument sequence is rendered and no subprocess is
invoked. -/
theorem C7_encrypted_wrong_format (i : Image) (hE : i.Encrypted = true)
    (hF : i.Format ≠ ImageFormatQCOW2) :
    i.create = Except.error "encrypted volumes must be qcow2 format" := by
  simp [Image.create, hE, hF]

/-- C7 witness: the theorem at the concrete encrypted raw-format image
returned by `NewEncryptedImage "a.raw" raw "sec" 5`. -/
theorem C7_encrypted_wrong_format_witness :
    (NewEncryptedImage "a.raw" ImageFormatRAW "sec" 5).1.create
      = Except.error "encrypted volumes must be qcow2 format" :=
  C7_encrypted_wrong_format (NewEncryptedImage "a.raw" ImageFormatRAW "sec" 5).1
    rfl (by decide)

/-- C8: for every encrypted image, each snapshot operation's rendered
argument list contains, as a single argument token, the secret object
argument carrying the raw secret in clear text
(`secret,id=sec0,data=` followed by the secret). -/
theorem C8_secret_in_clear (i : Image) (name : String) (hE : i.Encrypted = true) :
    ("secret,id=sec0,data=" ++ i.Secret) ∈ i.createSnapshotArgs name ∧
    ("secret,id=sec0,data=" ++ i.Secret) ∈ i.restoreSnapshotArgs name ∧
    ("secret,id=sec0,data=" ++ i.Secret) ∈ i.deleteSnapshotArgs name := by
  refine ⟨?_, ?_, ?_⟩ <;>
    simp [Image.createSnapshotArgs, Image.restoreSnapshotArgs,
      Image.deleteSnapshotArgs, hE]

/-- A concrete encrypted image with secret "topsecret", for the C8
witness. -/
def imgC8 : Image := (NewEncryptedImage "e.qcow2" ImageFormatQCOW2 "topsecret" 7).1

/-- C8 witness: the theorem at the concrete encrypted image `imgC8` and
snapshot name "snap1": the token `secret,id=sec0,data=topsecret` appears
in all three rendered argument lists. -/
theorem C8_secret_in_clear_witness :
    ("secret,id=sec0,data=" ++ imgC8.Secret) ∈ imgC8.createSnapshotArgs "snap1" ∧
    ("secret,id=sec0,data=" ++ imgC8.Secret) ∈ imgC8.restoreSnapshotArgs "snap1" ∧
    ("secret,id=sec0,data=" ++ imgC8.Secret) ∈ imgC8.deleteSnapshotArgs "snap1" :=
  C8_secret_in_clear imgC8 "snap1" rfl

/-- C9: the lookup-by-name scan performed after `CreateSnapshot` returns
the first entry in list order whose name matches — in particular when
two or more entries share the requested name — and reports a lookup
failure (the error return) when no entry matches. -/
theorem C9_first_match (name : String) :
    (∀ (pre : List Snapshot) (s : Snapshot) (post : List Snapshot),
      (∀ t ∈ pre, t.Name ≠ name) → s.Name = name →
        createSnapshotResult (pre ++ s :: post) name = Except.ok s) ∧
    (∀ l : List Snapshot, (∀ t ∈ l, t.Name ≠ name) →
        createSnapshotResult l name = Except.error ()) := by
  have hfind : ∀ (pre : List Snapshot) (s : Snapshot) (post : List Snapshot),
      (∀ t ∈ pre, t.Name ≠ name) → s.Name = name →
        findSnapshotByName (pre ++ s :: post) name = some s := by
    intro pre
    induction pre with
    | nil =>
      intro s post _ hs
      simp [findSnapshotByName, hs]
    | cons t rest ih =>
      intro s post hpre hs
      have ht : t.Name ≠ name := hpre t (by simp)
      simp only [List.cons_append, findSnapshotByName, if_neg ht]
      exact ih s post (fun u hu => hpre u (by simp [hu])) hs
  have hnone : ∀ l : List Snapshot, (∀ t ∈ l, t.Name ≠ name) →
      findSnapshotByName l name = none := by
    intro l
    induction l with
    | nil => intro _; rfl
    | cons t rest ih =>
      intro hl
      have ht : t.Name ≠ name := hl t (by simp)
      simp only [findSnapshotByName, if_neg ht]
      exact ih fun u hu => hl u (by simp [hu])
  constructor
  · intro pre s post hpre hs
    simp [createSnapshotResult, hfind pre s post hpre hs]
  · intro l hl
    simp [createSnapshotResult, hnone l hl]

/-- First duplicate-named snapshot, for the C9 witness. -/
def snapA : Snapshot := { ID := 1, Name := "snap", Date := timeUnix 0 0, VMClock := timeUnix 0 0 }

/-- Second duplicate-named snapshot, for the C9 witness. -/
def snapB : Snapshot := { ID := 2, Name := "snap", Date := timeUnix 5 0, VMClock := timeUnix 5 0 }

/-- C9 witness: on the concrete list `[snapA, snapB]` whose two entries
share the name "snap", the lookup returns the first entry `snapA`; on
the same list no entry is named "other", so the lookup fails. -/
theorem C9_first_match_witness :
    createSnapshotResult [snapA, snapB] "snap" = Except.ok snapA ∧
    createSnapshotResult [snapA, snapB] "other" = Except.error () :=
  ⟨(C9_first_match "snap").1 [] snapA [snapB] (by simp) rfl,
   (C9_first_match "other").2 [snapA, snapB] (by decide)⟩

/-- C10: `Rebase` assigns `BackingFile` before invoking the external
tool, so for every tool outcome — success or failure — the resulting
image is exactly the input with `BackingFile` replaced by the argument
(no other field changes), and a failing tool invocation still surfaces
as an error. -/
theorem C10_rebase_sets_backing (i : Image) (backingFile : String)
    (toolOut : Option String) :
    (i.rebase backingFile toolOut).1 = { i with BackingFile := backingFile } ∧
    (∀ out : String, (i.rebase backingFile (some out)).2.isSome = true) := by
  constructor
  · cases toolOut <;> rfl
  · intro out
    rfl

end GoQemu
